import Mathlib

/-!
Verification development for the mopidy-connman connection-manager actor
(`mopidy_connman/actor.py`).

The actor is embedded shallowly:

* `ConnectionManager` mirrors the actor's own mutable fields (`config`,
  `manager`, `agent`, `state`).
* `World` mirrors the observable state of the external collaborators: the
  connman daemon's service and technology lists and global `State`, the
  bus-level signal subscriptions, the daemon-side agent registry, the
  locally exported agent objects, and fault switches that decide whether
  the teardown-path transport operations raise.
* Every actor method becomes a pure function returning a `Step`: the
  Python return value (or raised exception) as an `Except`, the resulting
  actor and world state, the trace of state-changing transport calls
  issued, and the trace of `ServiceListener.send` notifications.
  Read-only daemon queries (`get_services`, `get_technologies`, property
  reads) are modelled as pure reads of the `World` and are not traced.
-/

namespace Connman

/-- Values carried in a dbus property bag.  `byte` models `dbus.Byte`
(converted to a plain int by `convert_dbus`); `strDict` models a
string-to-string dictionary such as the APIPA `IPv4.Configuration`
value built in `on_start`. -/
inductive DVal where
  | byte (n : Nat)
  | int (n : Int)
  | str (s : String)
  | bool (b : Bool)
  | strList (l : List String)
  | strDict (l : List (String × String))
deriving DecidableEq, Repr

/-- Values held in the actor's `config` dictionary (`config['connman']`). -/
inductive CVal where
  | str (s : String)
  | bool (b : Bool)
  | strList (l : List String)
  | int (n : Int)
deriving DecidableEq, Repr

/-- Python truthiness of a config value, used by
`if ... and self.config['apipa_enabled']`. -/
def cvalTruthy : CVal → Bool
  | .str s => s != ""
  | .bool b => b
  | .strList l => !l.isEmpty
  | .int n => n != 0

/-- `convert_dbus`: a `dbus.Byte` becomes a plain int, everything else is
returned unchanged. -/
def convert_dbus : DVal → DVal
  | .byte n => .int n
  | v => v

/-- `make_string`: wraps a string as a dbus variant string. -/
def make_string (s : String) : DVal := .str s

/-- One connman technology as read fresh from the daemon:
object path, `Type` and `Powered` properties. -/
structure ConnTechnology where
  path : String
  techType : String
  powered : Bool
deriving DecidableEq, Repr

/-- Fault switches for the transport operations used on the teardown path.
`true` means the corresponding call raises when attempted. -/
structure Faults where
  removeFromConnectionRaises : Bool
  unregisterAgentRaises : Bool
  removeServicesSignalRaises : Bool
  removePropertySignalRaises : Bool
deriving DecidableEq, Repr

/-- Observable state of the daemon and bus: services (path with property
bag, in enumeration order), technologies, the manager's global `State`,
signal subscriptions held by the manager object, daemon-side registered
agent paths, locally exported dbus objects, and the fault switches. -/
structure World where
  services : List (String × List (String × DVal))
  technologies : List ConnTechnology
  managerState : String
  subscriptions : List String
  registeredAgents : List String
  exportedObjects : List String
  faults : Faults
deriving DecidableEq, Repr

/-- The `pyconnman.SimpleWifiAgent`: holds the per-target credential
parameters stored by `set_service_params`. -/
structure SimpleWifiAgent where
  serviceParams : List (String × List (String × DVal))
deriving DecidableEq, Repr

/-- Lifecycle states used by the actor (`service.ServiceState`). -/
inductive ServiceState where
  | stopped
  | starting
  | started
  | stopping
deriving DecidableEq, Repr

/-- The actor's own mutable fields. -/
structure ConnectionManager where
  config : List (String × CVal)
  manager : Option Unit
  agent : Option SimpleWifiAgent
  state : ServiceState
deriving DecidableEq, Repr

/-- Notifications emitted through `service.ServiceListener.send`. -/
inductive Event where
  | service_started (service : String)
  | service_stopped (service : String)
  | service_property_changed (service : String) (props : List (String × CVal))
deriving DecidableEq, Repr

/-- State-changing transport calls issued to the daemon, the bus or the
agent. -/
inductive TCall where
  | addSignalReceiver (signal : String)
  | removeSignalReceiver (signal : String)
  | registerAgent (path : String)
  | unregisterAgent (path : String)
  | removeFromConnection (path : String)
  | setPowered (path : String) (value : Bool)
  | scanTech (path : String)
  | serviceConnect (path : String)
  | serviceDisconnect (path : String)
  | setServiceProperty (path : String) (key : String) (value : DVal)
  | setServiceParams (target : String) (params : List (String × DVal))
deriving DecidableEq, Repr

/-- The outcome of one actor method call: the Python result (an exception
becomes `Except.error`), resulting actor and world state, the trace of
state-changing transport calls, and the emitted notifications. -/
structure Step (α : Type) where
  res : Except String α
  cm : ConnectionManager
  world : World
  calls : List TCall
  events : List Event
deriving Repr

def CONNMAN_SERVICE_NAME : String := "connman"

def agent_path : String := "/mopidy/wifi_agent"

def SIGNAL_SERVICES_CHANGED : String := "ServicesChanged"

def SIGNAL_PROPERTY_CHANGED : String := "PropertyChanged"

def readonly_properties : List String :=
  ["State", "Error", "Name", "Type", "Security", "Strength", "Nameservers",
   "Timeservers", "Domains", "IPv4", "IPv6", "Ethernet"]

def readwrite_properties : List String :=
  ["Autoconnect", "Nameservers.Configuration", "Timeservers.Configuration",
   "Domains.Configuration", "IPv4.Configuration", "IPv6.Configuration"]

/-- Replace the value under `k` if present, otherwise append the binding
(dictionary assignment). -/
def assocSet (l : List (String × DVal)) (k : String) (v : DVal) :
    List (String × DVal) :=
  if l.any (fun kv => kv.1 == k) then
    l.map (fun kv => if kv.1 == k then (k, v) else kv)
  else l ++ [(k, v)]

/-- The live property bag of the service at `path`. -/
def serviceProps (w : World) (path : String) : List (String × DVal) :=
  match w.services.find? (fun ps => ps.1 == path) with
  | some ps => ps.2
  | none => []

/-- Apply `ConnService(path).set_property(k, v)` to the daemon state. -/
def worldSetServiceProp (w : World) (path : String) (k : String) (v : DVal) :
    World :=
  { w with services :=
      w.services.map (fun ps => if ps.1 == path then (ps.1, assocSet ps.2 k v) else ps) }

/-- `_get_service_by_name`: linear scan of the fresh enumeration for the
first service whose `Name` property equals `name`; yields its path. -/
def get_service_by_name (w : World) (name : String) : Option String :=
  (w.services.find? (fun ps => ps.2.lookup "Name" == some (DVal.str name))).map (·.1)

/-- The `Step` produced when `api_protect` raises `Exception('Service not
ready')`: no transport call, no notification, no state change. -/
def notReadyStep {α : Type} (cm : ConnectionManager) (w : World) : Step α :=
  { res := .error "Service not ready", cm := cm, world := w, calls := [], events := [] }

/-- The `api_protect` decorator: run the body only when a manager
instance is present, otherwise raise. -/
def api_protect {α : Type} (f : ConnectionManager → World → Step α)
    (cm : ConnectionManager) (w : World) : Step α :=
  if cm.manager.isSome then f cm w else notReadyStep cm w

/-- `_unregister_wifi_agent`: best-effort teardown of a registered agent.
The whole body runs inside `try/except: pass`; a raise inside leaves the
remaining statements (including `self.agent = None`) unexecuted but is
swallowed. -/
def unregister_wifi_agent (cm : ConnectionManager) (w : World) :
    ConnectionManager × World × List TCall :=
  match cm.agent with
  | none => (cm, w, [])
  | some _ =>
    if w.faults.removeFromConnectionRaises then
      (cm, w, [TCall.removeFromConnection agent_path])
    else
      let w1 := { w with exportedObjects := w.exportedObjects.erase agent_path }
      if w.faults.unregisterAgentRaises then
        (cm, w1, [TCall.removeFromConnection agent_path, TCall.unregisterAgent agent_path])
      else
        let w2 := { w1 with registeredAgents := w1.registeredAgents.erase agent_path }
        ({ cm with agent := none }, w2,
         [TCall.removeFromConnection agent_path, TCall.unregisterAgent agent_path])

/-- The successful tail of `on_start`: record the started state and emit
`service_started`. -/
def on_start_finish (cm : ConnectionManager) (w : World) (calls : List TCall) :
    Step Unit :=
  { res := .ok (), cm := { cm with state := ServiceState.started }, world := w,
    calls := calls, events := [Event.service_started CONNMAN_SERVICE_NAME] }

/-- The APIPA phase of `on_start`: when the aggregate state is `idle` and
`apipa_enabled` is truthy, locate `apipa_interface` by name and, if found,
write a manual `IPv4.Configuration` and connect it.  Missing config keys
raise (`KeyError`), leaving the already-performed start work in place. -/
def on_start_apipa (cm : ConnectionManager) (w : World) (calls : List TCall) :
    Step Unit :=
  if w.managerState == "idle" then
    match cm.config.lookup "apipa_enabled" with
    | none =>
      { res := .error "KeyError: apipa_enabled", cm := cm, world := w,
        calls := calls, events := [] }
    | some v =>
      if cvalTruthy v then
        match cm.config.lookup "apipa_ipaddr", cm.config.lookup "apipa_netmask",
              cm.config.lookup "apipa_interface" with
        | some (CVal.str ip), some (CVal.str mask), some (CVal.str iface) =>
          let cfg := DVal.strDict [("Method", "manual"), ("Address", ip), ("Netmask", mask)]
          match get_service_by_name w iface with
          | some path =>
            on_start_finish cm (worldSetServiceProp w path "IPv4.Configuration" cfg)
              (calls ++ [TCall.setServiceProperty path "IPv4.Configuration" cfg,
                         TCall.serviceConnect path])
          | none => on_start_finish cm w calls
        | _, _, _ =>
          { res := .error "KeyError: apipa config", cm := cm, world := w,
            calls := calls, events := [] }
      else on_start_finish cm w calls
  else on_start_finish cm w calls

/-- The startup power policy loop: every technology whose `Type` is in the
configured `powered` list and which is not powered is powered on; nothing
else is touched. -/
def applyPowerPolicy (powered : List String) :
    List ConnTechnology → List ConnTechnology × List TCall
  | [] => ([], [])
  | t :: ts =>
    let rest := applyPowerPolicy powered ts
    if powered.contains t.techType && !t.powered then
      ({ t with powered := true } :: rest.1, TCall.setPowered t.path true :: rest.2)
    else (t :: rest.1, rest.2)

/-- `on_start`: no-op when a manager already exists; otherwise create the
manager, subscribe the two signal handlers, best-effort-unregister any
stale agent, register a fresh `SimpleWifiAgent`, apply the power policy,
run the APIPA phase, record the started state and emit
`service_started`. -/
def on_start (cm : ConnectionManager) (w : World) : Step Unit :=
  if cm.manager.isSome then
    { res := .ok (), cm := cm, world := w, calls := [], events := [] }
  else
    let w1 := { w with subscriptions :=
                  w.subscriptions ++ [SIGNAL_SERVICES_CHANGED, SIGNAL_PROPERTY_CHANGED] }
    let cm1 := { cm with manager := some () }
    let u := unregister_wifi_agent cm1 w1
    let cm2 := { u.1 with agent := some ⟨[]⟩ }
    let w2 := { u.2.1 with
                exportedObjects := u.2.1.exportedObjects ++ [agent_path],
                registeredAgents := u.2.1.registeredAgents ++ [agent_path] }
    let callsPre := [TCall.addSignalReceiver SIGNAL_SERVICES_CHANGED,
                     TCall.addSignalReceiver SIGNAL_PROPERTY_CHANGED] ++
                    u.2.2 ++ [TCall.registerAgent agent_path]
    match cm2.config.lookup "powered" with
    | some (CVal.strList poweredList) =>
      let pp := applyPowerPolicy poweredList w2.technologies
      on_start_apipa cm2 { w2 with technologies := pp.1 } (callsPre ++ pp.2)
    | _ =>
      { res := .error "KeyError: powered", cm := cm2, world := w2,
        calls := callsPre, events := [] }

/-- `on_stop`: no-op when no manager exists; otherwise best-effort agent
teardown, then removal of the two signal subscriptions (NOT inside any
`try`: a raise there propagates and aborts the transition), then the
handle is discarded, the stopped state recorded and `service_stopped`
emitted. -/
def on_stop (cm : ConnectionManager) (w : World) : Step Unit :=
  if cm.manager.isNone then
    { res := .ok (), cm := cm, world := w, calls := [], events := [] }
  else
    let u := unregister_wifi_agent cm w
    let calls1 := u.2.2 ++ [TCall.removeSignalReceiver SIGNAL_SERVICES_CHANGED]
    if w.faults.removeServicesSignalRaises then
      { res := .error "TransportError: remove_signal_receiver", cm := u.1,
        world := u.2.1, calls := calls1, events := [] }
    else
      let w2 := { u.2.1 with subscriptions := u.2.1.subscriptions.erase SIGNAL_SERVICES_CHANGED }
      let calls2 := calls1 ++ [TCall.removeSignalReceiver SIGNAL_PROPERTY_CHANGED]
      if w.faults.removePropertySignalRaises then
        { res := .error "TransportError: remove_signal_receiver", cm := u.1,
          world := w2, calls := calls2, events := [] }
      else
        let w3 := { w2 with subscriptions := w2.subscriptions.erase SIGNAL_PROPERTY_CHANGED }
        { res := .ok (),
          cm := { u.1 with manager := none, state := ServiceState.stopped },
          world := w3, calls := calls2,
          events := [Event.service_stopped CONNMAN_SERVICE_NAME] }

/-- `get_connections` body: one `Name` entry (possibly absent) per service,
in enumeration order. -/
def get_connections_body (cm : ConnectionManager) (w : World) :
    Step (List (Option DVal)) :=
  { res := .ok (w.services.map (fun ps => ps.2.lookup "Name")), cm := cm,
    world := w, calls := [], events := [] }

def get_connections : ConnectionManager → World → Step (List (Option DVal)) :=
  api_protect get_connections_body

/-- `scan` body: issue a scan for every technology whose type is in the
`scannable` config list. -/
def scan_body (cm : ConnectionManager) (w : World) : Step Unit :=
  match cm.config.lookup "scannable" with
  | some (CVal.strList sc) =>
    { res := .ok (), cm := cm, world := w,
      calls := w.technologies.filterMap
        (fun t => if sc.contains t.techType then some (TCall.scanTech t.path) else none),
      events := [] }
  | _ =>
    { res := .error "KeyError: scannable", cm := cm, world := w, calls := [], events := [] }

def scan : ConnectionManager → World → Step Unit :=
  api_protect scan_body

/-- `get_connection_state` body: read the manager's global `State`. -/
def get_connection_state_body (cm : ConnectionManager) (w : World) : Step String :=
  { res := .ok w.managerState, cm := cm, world := w, calls := [], events := [] }

def get_connection_state : ConnectionManager → World → Step String :=
  api_protect get_connection_state_body

/-- `connect` body: resolve by name, connect when found, silently no-op
otherwise. -/
def connect_body (conn : String) (cm : ConnectionManager) (w : World) : Step Unit :=
  match get_service_by_name w conn with
  | some path =>
    { res := .ok (), cm := cm, world := w, calls := [TCall.serviceConnect path], events := [] }
  | none => { res := .ok (), cm := cm, world := w, calls := [], events := [] }

def connect (conn : String) : ConnectionManager → World → Step Unit :=
  api_protect (connect_body conn)

/-- `disconnect` body: resolve by name, disconnect when found, silently
no-op otherwise. -/
def disconnect_body (conn : String) (cm : ConnectionManager) (w : World) : Step Unit :=
  match get_service_by_name w conn with
  | some path =>
    { res := .ok (), cm := cm, world := w, calls := [TCall.serviceDisconnect path], events := [] }
  | none => { res := .ok (), cm := cm, world := w, calls := [], events := [] }

def disconnect (conn : String) : ConnectionManager → World → Step Unit :=
  api_protect (disconnect_body conn)

/-- `get_connection_properties` body: resolve; on not-found the Python
method falls through and returns `None`; otherwise filter the live bag to
the whitelist union, converting each value. -/
def get_connection_properties_body (conn : String) (cm : ConnectionManager)
    (w : World) : Step (Option (List (String × DVal))) :=
  match get_service_by_name w conn with
  | none => { res := .ok none, cm := cm, world := w, calls := [], events := [] }
  | some path =>
    let props := serviceProps w path
    let ret := (props.filter
        (fun kv => decide (kv.1 ∈ readonly_properties ++ readwrite_properties))).map
      (fun kv => (kv.1, convert_dbus kv.2))
    { res := .ok (some ret), cm := cm, world := w, calls := [], events := [] }

def get_connection_properties (conn : String) :
    ConnectionManager → World → Step (Option (List (String × DVal))) :=
  api_protect (get_connection_properties_body conn)

/-- The write loop of `set_connection_properties`: iterate the snapshot of
the live bag; for each key in the read-write whitelist write
`set_props[key]` — a dictionary index, so a key missing from `set_props`
raises `KeyError`, aborting the loop with the earlier writes kept. -/
def writeProps (path : String) (sp : List (String × DVal)) :
    List (String × DVal) → World → Except String Unit × World × List TCall
  | [], w => (.ok (), w, [])
  | (k, _) :: rest, w =>
    if k ∈ readwrite_properties then
      match sp.lookup k with
      | none => (.error ("KeyError: " ++ k), w, [])
      | some v =>
        let r := writeProps path sp rest (worldSetServiceProp w path k v)
        (r.1, r.2.1, TCall.setServiceProperty path k v :: r.2.2)
    else writeProps path sp rest w

/-- `set_connection_properties` body: resolve (silent no-op on not-found),
snapshot the live bag, run the write loop. -/
def set_connection_properties_body (conn : String) (set_props : List (String × DVal))
    (cm : ConnectionManager) (w : World) : Step Unit :=
  match get_service_by_name w conn with
  | none => { res := .ok (), cm := cm, world := w, calls := [], events := [] }
  | some path =>
    let r := writeProps path set_props (serviceProps w path) w
    { res := r.1, cm := cm, world := r.2.1, calls := r.2.2, events := [] }

def set_connection_properties (conn : String) (set_props : List (String × DVal)) :
    ConnectionManager → World → Step Unit :=
  api_protect (set_connection_properties_body conn set_props)

def allowed_config : List String := ["name", "ssid", "passphrase", "wpspin"]

/-- `SimpleWifiAgent.set_service_params(target, **params)`: store the
credential fields for `target` in the agent's cache. -/
def set_service_params (a : SimpleWifiAgent) (target : String)
    (params : List (String × DVal)) : SimpleWifiAgent :=
  ⟨(a.serviceParams.filter (fun kv => kv.1 != target)) ++ [(target, params)]⟩

/-- `set_wifi_config` body: filter `config` to the allowed credential
fields; when `conn` is not `None` resolve it as a service NAME (so the
string `"*"` is looked up literally) and use the resolved object path as
target, or no target on not-found; only when `conn` is `None` is the
wildcard target `"*"` used.  With a target present the parameters are
stored on the agent. -/
def set_wifi_config_body (conn : Option String) (config : List (String × DVal))
    (cm : ConnectionManager) (w : World) : Step Unit :=
  let set_config := config.filter (fun kv => decide (kv.1 ∈ allowed_config))
  let path : Option String :=
    match conn with
    | some c => get_service_by_name w c
    | none => some "*"
  match path with
  | some p =>
    if p != "" then
      match cm.agent with
      | some a =>
        { res := .ok (), cm := { cm with agent := some (set_service_params a p set_config) },
          world := w, calls := [TCall.setServiceParams p set_config], events := [] }
      | none =>
        { res := .error "AttributeError: agent is None", cm := cm, world := w,
          calls := [], events := [] }
    else { res := .ok (), cm := cm, world := w, calls := [], events := [] }
  | none => { res := .ok (), cm := cm, world := w, calls := [], events := [] }

def set_wifi_config (conn : Option String) (config : List (String × DVal)) :
    ConnectionManager → World → Step Unit :=
  api_protect (set_wifi_config_body conn config)

/-- `enable`: straight alias for `on_start`. -/
def enable : ConnectionManager → World → Step Unit := on_start

/-- `disable`: straight alias for `on_stop`. -/
def disable : ConnectionManager → World → Step Unit := on_stop

/-- `set_property` (config mutation): when the key is already present,
update it, emit `service_property_changed`, then call `enable()` followed
by `disable()` (in that order, as the source does). -/
def set_property (cm : ConnectionManager) (w : World) (name : String)
    (value : CVal) : Step Unit :=
  if (cm.config.lookup name).isSome then
    let cm1 := { cm with config :=
                  cm.config.map (fun kv => if kv.1 == name then (name, value) else kv) }
    let ev := Event.service_property_changed CONNMAN_SERVICE_NAME [(name, value)]
    let s1 := enable cm1 w
    match s1.res with
    | Except.error e =>
      { res := .error e, cm := s1.cm, world := s1.world, calls := s1.calls,
        events := ev :: s1.events }
    | Except.ok _ =>
      let s2 := disable s1.cm s1.world
      { res := s2.res, cm := s2.cm, world := s2.world,
        calls := s1.calls ++ s2.calls, events := ev :: (s1.events ++ s2.events) }
  else { res := .ok (), cm := cm, world := w, calls := [], events := [] }

/-- `get_property` (config read): the whole snapshot for `None`, a
singleton mapping for a present key, `None` for an absent one. -/
def get_property (cm : ConnectionManager) (name : Option String) :
    Option (List (String × CVal)) :=
  match name with
  | none => some cm.config
  | some n =>
    match cm.config.lookup n with
    | some v => some [(n, v)]
    | none => none

/-! Concrete fixtures used to instantiate the theorems below. -/

/-- A full connman config as supplied by the extension schema. -/
def defaultConfig : List (String × CVal) :=
  [("powered", CVal.strList ["wifi"]),
   ("scannable", CVal.strList ["wifi"]),
   ("apipa_enabled", CVal.bool true),
   ("apipa_ipaddr", CVal.str "169.254.1.1"),
   ("apipa_netmask", CVal.str "255.255.0.0"),
   ("apipa_interface", CVal.str "Wired")]

/-- An actor that has not been started: no manager, no agent. -/
def cmStopped : ConnectionManager :=
  { config := defaultConfig, manager := none, agent := none,
    state := ServiceState.stopped }

/-- An actor with an established session. -/
def cmStarted : ConnectionManager :=
  { config := defaultConfig, manager := some (), agent := some ⟨[]⟩,
    state := ServiceState.started }

def noFaults : Faults := ⟨false, false, false, false⟩

/-- A daemon with one named service and two technologies, no faults. -/
def w0 : World :=
  { services := [("/s1", [("Name", DVal.str "home"), ("Autoconnect", DVal.bool false)])],
    technologies := [⟨"/t1", "wifi", false⟩, ⟨"/t2", "ethernet", true⟩],
    managerState := "online", subscriptions := [], registeredAgents := [],
    exportedObjects := [], faults := noFaults }

/-- A daemon state matching an established session, where removing the
services-changed subscription raises. -/
def w8 : World :=
  { w0 with subscriptions := [SIGNAL_SERVICES_CHANGED, SIGNAL_PROPERTY_CHANGED],
            registeredAgents := [agent_path], exportedObjects := [agent_path],
            faults := ⟨false, false, true, false⟩ }

/-- Like `w8` but only the two agent-teardown operations raise. -/
def w8b : World :=
  { w8 with faults := ⟨true, true, false, false⟩ }

/-- A daemon whose one service carries an unknown `Frobnicate` key next
to whitelisted ones. -/
def w4x : World :=
  { w0 with services :=
      [("/s1", [("Name", DVal.str "home"), ("Autoconnect", DVal.bool false),
                ("Frobnicate", DVal.int 7)])] }

/-- A daemon whose second service has no `Name` property and whose third
repeats the first's name. -/
def w10 : World :=
  { w0 with services :=
      [("/s1", [("Name", DVal.str "home")]),
       ("/s2", [("Type", DVal.str "ethernet")]),
       ("/s3", [("Name", DVal.str "home")])] }

/-! Helper lemmas about the lifecycle functions. -/

lemma unregister_wifi_agent_none (cm : ConnectionManager) (w : World)
    (ha : cm.agent = none) : unregister_wifi_agent cm w = (cm, w, []) := by
  simp [unregister_wifi_agent, ha]

lemma unreg_fst_config (cm : ConnectionManager) (w : World) :
    (unregister_wifi_agent cm w).1.config = cm.config := by
  unfold unregister_wifi_agent
  repeat' split
  all_goals rfl

lemma unreg_fst_manager (cm : ConnectionManager) (w : World) :
    (unregister_wifi_agent cm w).1.manager = cm.manager := by
  unfold unregister_wifi_agent
  repeat' split
  all_goals rfl

lemma unreg_snd_technologies (cm : ConnectionManager) (w : World) :
    (unregister_wifi_agent cm w).2.1.technologies = w.technologies := by
  unfold unregister_wifi_agent
  repeat' split
  all_goals rfl

lemma unreg_snd_subscriptions (cm : ConnectionManager) (w : World) :
    (unregister_wifi_agent cm w).2.1.subscriptions = w.subscriptions := by
  unfold unregister_wifi_agent
  repeat' split
  all_goals rfl

lemma on_start_noop (cm : ConnectionManager) (w : World)
    (hm : cm.manager.isSome = true) :
    on_start cm w = { res := .ok (), cm := cm, world := w, calls := [], events := [] } := by
  simp [on_start, hm]

lemma on_start_apipa_cm_manager (cm : ConnectionManager) (w : World) (cs : List TCall) :
    (on_start_apipa cm w cs).cm.manager = cm.manager := by
  unfold on_start_apipa on_start_finish
  repeat' split
  all_goals rfl

lemma on_start_apipa_cm_agent (cm : ConnectionManager) (w : World) (cs : List TCall) :
    (on_start_apipa cm w cs).cm.agent = cm.agent := by
  unfold on_start_apipa on_start_finish
  repeat' split
  all_goals rfl

lemma on_start_apipa_world_technologies (cm : ConnectionManager) (w : World)
    (cs : List TCall) :
    (on_start_apipa cm w cs).world.technologies = w.technologies := by
  unfold on_start_apipa on_start_finish worldSetServiceProp
  repeat' split
  all_goals rfl

lemma on_start_apipa_world_subscriptions (cm : ConnectionManager) (w : World)
    (cs : List TCall) :
    (on_start_apipa cm w cs).world.subscriptions = w.subscriptions := by
  unfold on_start_apipa on_start_finish worldSetServiceProp
  repeat' split
  all_goals rfl

lemma on_start_apipa_world_registeredAgents (cm : ConnectionManager) (w : World)
    (cs : List TCall) :
    (on_start_apipa cm w cs).world.registeredAgents = w.registeredAgents := by
  unfold on_start_apipa on_start_finish worldSetServiceProp
  repeat' split
  all_goals rfl

lemma on_start_apipa_ok_events (cm : ConnectionManager) (w : World) (cs : List TCall)
    (h : (on_start_apipa cm w cs).res = .ok ()) :
    (on_start_apipa cm w cs).events = [Event.service_started CONNMAN_SERVICE_NAME] := by
  revert h
  unfold on_start_apipa on_start_finish
  repeat' split
  all_goals simp

/-- Shape of a fresh start: with no manager and no stale agent, `on_start`
is the APIPA phase run after subscribing, registering the agent and
applying the power policy. -/
lemma on_start_unfold (cm : ConnectionManager) (w : World) (P : List String)
    (hm : cm.manager = none) (ha : cm.agent = none)
    (hp : cm.config.lookup "powered" = some (CVal.strList P)) :
    on_start cm w = on_start_apipa
      { cm with manager := some (), agent := some ⟨[]⟩ }
      { w with
        subscriptions := w.subscriptions ++ [SIGNAL_SERVICES_CHANGED, SIGNAL_PROPERTY_CHANGED],
        exportedObjects := w.exportedObjects ++ [agent_path],
        registeredAgents := w.registeredAgents ++ [agent_path],
        technologies := (applyPowerPolicy P w.technologies).1 }
      ([TCall.addSignalReceiver SIGNAL_SERVICES_CHANGED,
        TCall.addSignalReceiver SIGNAL_PROPERTY_CHANGED,
        TCall.registerAgent agent_path] ++ (applyPowerPolicy P w.technologies).2) := by
  simp [on_start, unregister_wifi_agent, hm, ha, hp]

lemma applyPowerPolicy_fst (P : List String) (ts : List ConnTechnology) :
    (applyPowerPolicy P ts).1 =
      ts.map (fun t => { t with powered := t.powered || P.contains t.techType }) := by
  induction ts with
  | nil => rfl
  | cons t ts ih =>
    obtain ⟨p, ty, pow⟩ := t
    by_cases hmem : ty ∈ P <;> cases pow <;>
      simp [applyPowerPolicy, hmem, ih]

lemma writeProps_total_of_covered (path : String) (sp : List (String × DVal))
    (live : List (String × DVal)) (w : World)
    (h : ∀ k ∈ live.map Prod.fst, k ∈ readwrite_properties →
      (sp.lookup k).isSome = true) :
    (writeProps path sp live w).1 = .ok () ∧
    (writeProps path sp live w).2.2 =
      live.filterMap (fun kv =>
        if kv.1 ∈ readwrite_properties then
          (sp.lookup kv.1).map (fun v => TCall.setServiceProperty path kv.1 v)
        else none) := by
  induction live generalizing w with
  | nil => exact ⟨rfl, rfl⟩
  | cons kv rest ih =>
    obtain ⟨k, v⟩ := kv
    by_cases hk : k ∈ readwrite_properties
    · have hsome := h k (by simp) hk
      obtain ⟨v2, hv2⟩ := Option.isSome_iff_exists.mp hsome
      have hrest : ∀ k2 ∈ rest.map Prod.fst, k2 ∈ readwrite_properties →
          (sp.lookup k2).isSome = true :=
        fun k2 hk2 => h k2 (by simp [hk2])
      have hih := ih (worldSetServiceProp w path k v2) hrest
      simp [writeProps, hk, hv2, hih.1, hih.2]
    · have hrest : ∀ k2 ∈ rest.map Prod.fst, k2 ∈ readwrite_properties →
          (sp.lookup k2).isSome = true :=
        fun k2 hk2 => h k2 (by simp [hk2])
      have hih := ih w hrest
      simp [writeProps, hk, hih.1, hih.2]

/-! Claim theorems. -/

/-- C1: every operational call issued while the manager is absent fails
with the 'Service not ready' error and performs no side effects — no
transport call, no notification, no change to the actor or daemon
state (all of which is packaged in `notReadyStep`). -/
theorem C1_readiness_gate (cm : ConnectionManager) (w : World)
    (hm : cm.manager = none) (c1 c2 c3 c4 : String)
    (sp : List (String × DVal)) (wc : Option String)
    (cfg : List (String × DVal)) :
    get_connections cm w = notReadyStep cm w ∧
    scan cm w = notReadyStep cm w ∧
    get_connection_state cm w = notReadyStep cm w ∧
    connect c1 cm w = notReadyStep cm w ∧
    disconnect c2 cm w = notReadyStep cm w ∧
    get_connection_properties c3 cm w = notReadyStep cm w ∧
    set_connection_properties c4 sp cm w = notReadyStep cm w ∧
    set_wifi_config wc cfg cm w = notReadyStep cm w := by
  simp [get_connections, scan, get_connection_state, connect, disconnect,
        get_connection_properties, set_connection_properties, set_wifi_config,
        api_protect, hm]

/-- C1 witness: the readiness gate at a concrete stopped actor. -/
theorem C1_readiness_gate_witness :
    get_connections cmStopped w0 = notReadyStep cmStopped w0 ∧
    scan cmStopped w0 = notReadyStep cmStopped w0 ∧
    get_connection_state cmStopped w0 = notReadyStep cmStopped w0 ∧
    connect "home" cmStopped w0 = notReadyStep cmStopped w0 ∧
    disconnect "home" cmStopped w0 = notReadyStep cmStopped w0 ∧
    get_connection_properties "home" cmStopped w0 = notReadyStep cmStopped w0 ∧
    set_connection_properties "home" [] cmStopped w0 = notReadyStep cmStopped w0 ∧
    set_wifi_config (some "home") [] cmStopped w0 = notReadyStep cmStopped w0 :=
  C1_readiness_gate cmStopped w0 rfl "home" "home" "home" "home" []
    (some "home") []

/-- C2: the claimed config-mutation bounce does not happen.  From a
started session, `set_property` calls `enable()` (a no-op, the manager
already exists) and then `disable()`, so the notifications are
`service_property_changed` followed by `service_stopped` only — no
`service_started` — and the session ends stopped with the manager
discarded, although the config value itself was updated. -/
theorem C2_bounce_order_bug :
    (set_property cmStarted w0 "scannable" (CVal.strList ["wifi", "ethernet"])).events =
      [Event.service_property_changed "connman"
         [("scannable", CVal.strList ["wifi", "ethernet"])],
       Event.service_stopped "connman"] ∧
    (set_property cmStarted w0 "scannable" (CVal.strList ["wifi", "ethernet"])).cm.manager
      = none ∧
    (set_property cmStarted w0 "scannable" (CVal.strList ["wifi", "ethernet"])).cm.state
      = ServiceState.stopped ∧
    (set_property cmStarted w0 "scannable" (CVal.strList ["wifi", "ethernet"])).cm.config.lookup
      "scannable" = some (CVal.strList ["wifi", "ethernet"]) :=
  ⟨rfl, rfl, rfl, rfl⟩

/-- C3 counterexample: with a resolvable service whose live bag contains
the read-write key `Autoconnect`, an empty updates mapping makes
`set_connection_properties` raise a `KeyError` instead of completing
without error. -/
theorem C3_counterexample :
    get_service_by_name w0 "home" = some "/s1" ∧
    (set_connection_properties "home" [] cmStarted w0).res =
      .error "KeyError: Autoconnect" ∧
    (set_connection_properties "home" [] cmStarted w0).calls = [] :=
  ⟨rfl, rfl, rfl⟩

/-- C4 counterexample: the read-only and read-write whitelists are
disjoint and their union has 18 distinct keys, not 17. -/
theorem C4_counterexample :
    (readonly_properties ++ readwrite_properties).dedup.length = 18 ∧
    ¬(readonly_properties ++ readwrite_properties).dedup.length = 17 := by
  decide

/-- C5: passing the sentinel `"*"` as the connection argument does NOT
store wildcard credentials.  The code resolves `"*"` as a literal
service name, finds nothing, and becomes a pure no-op: no
`set_service_params` call, the agent cache unchanged.  Only `conn = None`
reaches the wildcard target, as the contrasting conjuncts show. -/
theorem C5_wildcard_sentinel_ignored :
    set_wifi_config (some "*") [("ssid", DVal.str "S")] cmStarted w0 =
      { res := .ok (), cm := cmStarted, world := w0, calls := [], events := [] } ∧
    (set_wifi_config none [("ssid", DVal.str "S")] cmStarted w0).calls =
      [TCall.setServiceParams "*" [("ssid", DVal.str "S")]] ∧
    (set_wifi_config none [("ssid", DVal.str "S")] cmStarted w0).cm.agent =
      some ⟨[("*", [("ssid", DVal.str "S")])]⟩ :=
  ⟨rfl, rfl, rfl⟩

/-- C6: when the name matches no service, `connect` and `disconnect`
return without error, issue no transport call, emit nothing and change
no state. -/
theorem C6_fail_soft_resolution (cm : ConnectionManager) (w : World)
    (conn : String) (hm : cm.manager = some ())
    (hnone : get_service_by_name w conn = none) :
    connect conn cm w =
      { res := .ok (), cm := cm, world := w, calls := [], events := [] } ∧
    disconnect conn cm w =
      { res := .ok (), cm := cm, world := w, calls := [], events := [] } := by
  simp [connect, disconnect, api_protect, connect_body, disconnect_body, hm, hnone]

/-- C6 witness: fail-soft resolution at a concrete unresolvable name. -/
theorem C6_fail_soft_resolution_witness :
    connect "nonexistent" cmStarted w0 =
      { res := .ok (), cm := cmStarted, world := w0, calls := [], events := [] } ∧
    disconnect "nonexistent" cmStarted w0 =
      { res := .ok (), cm := cmStarted, world := w0, calls := [], events := [] } :=
  C6_fail_soft_resolution cmStarted w0 "nonexistent" rfl rfl

/-- C8 counterexample: when removing the services-changed subscription
raises during `on_stop`, the error is NOT swallowed — the call fails,
the manager handle is kept and no `service_stopped` is emitted. -/
theorem C8_counterexample :
    (on_stop cmStarted w8).res = .error "TransportError: remove_signal_receiver" ∧
    (on_stop cmStarted w8).cm.manager = some () ∧
    (on_stop cmStarted w8).events = [] :=
  ⟨rfl, rfl, rfl⟩

/-- C10: `get_connections` returns exactly one entry per daemon service,
in enumeration order, each entry being the service's `Name` lookup (so a
bag without `Name` contributes an absent entry), with no other effect. -/
theorem C10_enumeration_order (cm : ConnectionManager) (w : World)
    (hm : cm.manager = some ()) :
    (get_connections cm w).res =
      .ok (w.services.map (fun ps => ps.2.lookup "Name")) ∧
    (w.services.map (fun ps => ps.2.lookup "Name")).length = w.services.length ∧
    (get_connections cm w).cm = cm ∧ (get_connections cm w).world = w ∧
    (get_connections cm w).calls = [] ∧ (get_connections cm w).events = [] := by
  simp [get_connections, api_protect, get_connections_body, hm]

/-- C10 witness: a nameless service yields an absent entry and a
duplicated name is not deduplicated. -/
theorem C10_enumeration_order_witness :
    (get_connections cmStarted w10).res =
      .ok [some (DVal.str "home"), none, some (DVal.str "home")] ∧
    [some (DVal.str "home"), none, some (DVal.str "home")].length =
      w10.services.length ∧
    (get_connections cmStarted w10).cm = cmStarted ∧
    (get_connections cmStarted w10).world = w10 ∧
    (get_connections cmStarted w10).calls = [] ∧
    (get_connections cmStarted w10).events = [] :=
  C10_enumeration_order cmStarted w10 rfl

/-- C3 amended: for a resolved connection, provided the updates mapping
covers every key that is in both the live bag and the read-write
whitelist, `set_connection_properties` completes without error and writes
`updates[key]` exactly for those keys, in live-bag order; keys of
`updates` outside that intersection are silently ignored and keys absent
from the live bag are never written. -/
theorem C3_amended_write_filtering (cm : ConnectionManager) (w : World)
    (conn : String) (set_props : List (String × DVal)) (path : String)
    (hm : cm.manager = some ())
    (hres : get_service_by_name w conn = some path)
    (hcov : ∀ k ∈ (serviceProps w path).map Prod.fst, k ∈ readwrite_properties →
      (set_props.lookup k).isSome = true) :
    (set_connection_properties conn set_props cm w).res = .ok () ∧
    (set_connection_properties conn set_props cm w).calls =
      (serviceProps w path).filterMap (fun kv =>
        if kv.1 ∈ readwrite_properties then
          (set_props.lookup kv.1).map (fun v => TCall.setServiceProperty path kv.1 v)
        else none) ∧
    (set_connection_properties conn set_props cm w).events = [] ∧
    (set_connection_properties conn set_props cm w).cm = cm := by
  have hw := writeProps_total_of_covered path set_props (serviceProps w path) w hcov
  simp [set_connection_properties, api_protect, set_connection_properties_body,
        hm, hres, hw.1, hw.2]

/-- C3 witness: updating `{Autoconnect, Type}` writes only `Autoconnect`
(`Type` is read-only and ignored) and succeeds. -/
theorem C3_amended_write_filtering_witness :
    (set_connection_properties "home"
      [("Autoconnect", DVal.bool true), ("Type", DVal.str "x")] cmStarted w0).res =
        .ok () ∧
    (set_connection_properties "home"
      [("Autoconnect", DVal.bool true), ("Type", DVal.str "x")] cmStarted w0).calls =
      [TCall.setServiceProperty "/s1" "Autoconnect" (DVal.bool true)] ∧
    (set_connection_properties "home"
      [("Autoconnect", DVal.bool true), ("Type", DVal.str "x")] cmStarted w0).events = [] ∧
    (set_connection_properties "home"
      [("Autoconnect", DVal.bool true), ("Type", DVal.str "x")] cmStarted w0).cm =
      cmStarted :=
  C3_amended_write_filtering cmStarted w0 "home"
    [("Autoconnect", DVal.bool true), ("Type", DVal.str "x")] "/s1" rfl rfl
    (by decide)

/-- C4 amended: for every resolvable name, every key returned by
`get_connection_properties` belongs to the 18-key union of the read-only
and read-write whitelists; keys outside it are dropped. -/
theorem C4_amended_whitelist_union (cm : ConnectionManager) (w : World)
    (conn : String) (props : List (String × DVal)) (hm : cm.manager = some ())
    (h : (get_connection_properties conn cm w).res = .ok (some props)) :
    ∀ kv ∈ props, kv.1 ∈ readonly_properties ++ readwrite_properties := by
  intro kv hkv
  simp only [get_connection_properties, api_protect, hm, Option.isSome_some,
             if_true] at h
  cases hres : get_service_by_name w conn with
  | none =>
    simp [get_connection_properties_body, hres] at h
  | some path =>
    simp only [get_connection_properties_body, hres, Except.ok.injEq,
               Option.some.injEq] at h
    subst h
    simp only [List.mem_map, List.mem_filter, decide_eq_true_eq] at hkv
    obtain ⟨kv2, ⟨_, hmem⟩, hkv2⟩ := hkv
    rw [← hkv2]
    exact hmem

/-- C4 witness: against the bag holding the unknown `Frobnicate` key the
call returns exactly the `Name` and `Autoconnect` entries, and each of
their keys is in the whitelist union. -/
theorem C4_amended_whitelist_union_witness :
    ("Name", DVal.str "home").1 ∈ readonly_properties ++ readwrite_properties ∧
    ("Autoconnect", DVal.bool false).1 ∈ readonly_properties ++ readwrite_properties :=
  ⟨C4_amended_whitelist_union cmStarted w4x "home"
      [("Name", DVal.str "home"), ("Autoconnect", DVal.bool false)] rfl rfl
      ("Name", DVal.str "home") (by decide),
   C4_amended_whitelist_union cmStarted w4x "home"
      [("Name", DVal.str "home"), ("Autoconnect", DVal.bool false)] rfl rfl
      ("Autoconnect", DVal.bool false) (by decide)⟩

/-- C7: starting from a fresh stopped actor, a successful `on_start`
establishes exactly one session — manager present, one fresh agent, the
pair of signal subscriptions, one registered agent path, one
`service_started` notification — and a second `on_start` is a complete
no-op: no result change, no transport call, no notification. -/
theorem C7_start_idempotent (cm : ConnectionManager) (w : World)
    (hm : cm.manager = none) (ha : cm.agent = none)
    (hsub : w.subscriptions = []) (hreg : w.registeredAgents = [])
    (hok : (on_start cm w).res = .ok ()) :
    on_start (on_start cm w).cm (on_start cm w).world =
      { res := .ok (), cm := (on_start cm w).cm, world := (on_start cm w).world,
        calls := [], events := [] } ∧
    (on_start cm w).events = [Event.service_started CONNMAN_SERVICE_NAME] ∧
    (on_start cm w).cm.manager = some () ∧
    (on_start cm w).cm.agent = some ⟨[]⟩ ∧
    (on_start cm w).world.subscriptions =
      [SIGNAL_SERVICES_CHANGED, SIGNAL_PROPERTY_CHANGED] ∧
    (on_start cm w).world.registeredAgents = [agent_path] := by
  cases hp : cm.config.lookup "powered" with
  | none =>
    exact absurd hok (by simp [on_start, unregister_wifi_agent, hm, ha, hp])
  | some v =>
    cases v with
    | str s =>
      exact absurd hok (by simp [on_start, unregister_wifi_agent, hm, ha, hp])
    | bool b =>
      exact absurd hok (by simp [on_start, unregister_wifi_agent, hm, ha, hp])
    | int n =>
      exact absurd hok (by simp [on_start, unregister_wifi_agent, hm, ha, hp])
    | strList P =>
      rw [on_start_unfold cm w P hm ha hp] at hok ⊢
      refine ⟨?_, on_start_apipa_ok_events _ _ _ hok, ?_, ?_, ?_, ?_⟩
      · exact on_start_noop _ _ (by rw [on_start_apipa_cm_manager]; rfl)
      · rw [on_start_apipa_cm_manager]
      · rw [on_start_apipa_cm_agent]
      · rw [on_start_apipa_world_subscriptions]
        simp [hsub]
      · rw [on_start_apipa_world_registeredAgents]
        simp [hreg]

/-- C7 witness: idempotent start at a concrete fresh actor and daemon. -/
theorem C7_start_idempotent_witness :
    on_start (on_start cmStopped w0).cm (on_start cmStopped w0).world =
      { res := .ok (), cm := (on_start cmStopped w0).cm,
        world := (on_start cmStopped w0).world, calls := [], events := [] } ∧
    (on_start cmStopped w0).events = [Event.service_started CONNMAN_SERVICE_NAME] ∧
    (on_start cmStopped w0).cm.manager = some () ∧
    (on_start cmStopped w0).cm.agent = some ⟨[]⟩ ∧
    (on_start cmStopped w0).world.subscriptions =
      [SIGNAL_SERVICES_CHANGED, SIGNAL_PROPERTY_CHANGED] ∧
    (on_start cmStopped w0).world.registeredAgents = [agent_path] :=
  C7_start_idempotent cmStopped w0 rfl rfl rfl rfl rfl

/-- C8 amended: errors raised during agent unregistration (object removal
or daemon-side unregister) are swallowed and `on_stop` still completes —
manager discarded, state stopped, `service_stopped` emitted — provided
removal of the two signal subscriptions does not raise; a raise there
propagates instead (see the counterexample). -/
theorem C8_amended_teardown (cm : ConnectionManager) (w : World)
    (hm : cm.manager = some ())
    (h1 : w.faults.removeServicesSignalRaises = false)
    (h2 : w.faults.removePropertySignalRaises = false) :
    (on_stop cm w).res = .ok () ∧
    (on_stop cm w).cm.manager = none ∧
    (on_stop cm w).cm.state = ServiceState.stopped ∧
    (on_stop cm w).events = [Event.service_stopped CONNMAN_SERVICE_NAME] := by
  simp [on_stop, hm, h1, h2]

/-- C8 witness: teardown completes although both agent-unregistration
operations raise. -/
theorem C8_amended_teardown_witness :
    (on_stop cmStarted w8b).res = .ok () ∧
    (on_stop cmStarted w8b).cm.manager = none ∧
    (on_stop cmStarted w8b).cm.state = ServiceState.stopped ∧
    (on_stop cmStarted w8b).events = [Event.service_stopped CONNMAN_SERVICE_NAME] :=
  C8_amended_teardown cmStarted w8b rfl rfl rfl

/-- C9: the startup power policy is asymmetric — after `on_start`, each
technology's power state is its old state OR-ed with membership of its
type in the `powered` config set: an unpowered in-set technology is
powered on, everything else (including powered technologies outside the
set) keeps its previous state; nothing is ever powered off. -/
theorem C9_power_asymmetry (cm : ConnectionManager) (w : World) (P : List String)
    (hm : cm.manager = none)
    (hp : cm.config.lookup "powered" = some (CVal.strList P)) :
    (on_start cm w).world.technologies =
      w.technologies.map
        (fun t => { t with powered := t.powered || P.contains t.techType }) := by
  simp [on_start, hm, hp, unreg_fst_config, unreg_snd_technologies,
        on_start_apipa_world_technologies, applyPowerPolicy_fst]

/-- C9 witness: with `powered = [wifi]`, unpowered wifi is turned on and
powered ethernet stays on. -/
theorem C9_power_asymmetry_witness :
    (on_start cmStopped w0).world.technologies =
      [⟨"/t1", "wifi", true⟩, ⟨"/t2", "ethernet", true⟩] :=
  C9_power_asymmetry cmStopped w0 ["wifi"] rfl rfl

end Connman
